import Mathlib

/-!
Shallow embedding of the `lei97/fragment` headers.

The repository has two independent facilities:

* a scope-guard family (`scoped_lambda`, `conditional_scoped_lambda`,
  the factories `on_scope_exit` / `on_scope_failure` / `on_scope_success`
  and the `ON_SCOPE_EXIT` convenience form built on `detail::operator+`);
* a private-member access capability (`StealMember` / `steal_impl`).

Actions are modelled as opaque values of a type `F`; invoking the wrapped
action is recorded as an event, so every operation that may call the
action returns the list of actions it invoked (in order).  The ambient
value of `std::uncaught_exceptions()` is threaded as an explicit `Int`
argument wherever the C++ reads it (at construction of a conditional
guard and inside its destructor).
-/

namespace fragment

/-- Embedding of `template <typename FUNC> class scoped_lambda`:
a wrapped action `func_` and the `cancel_` flag. -/
structure scoped_lambda (F : Type) where
  func_ : F
  cancel_ : Bool
  deriving DecidableEq, Repr

/-- Constructor `scoped_lambda(FUNC&& func)` via the factory
`on_scope_exit`: stores the action, `cancel_ = false`. -/
def on_scope_exit {F : Type} (func : F) : scoped_lambda F :=
  { func_ := func, cancel_ := false }

/-- Member `void cancel() { cancel_ = true; }`. -/
def scoped_lambda.cancel {F : Type} (g : scoped_lambda F) : scoped_lambda F :=
  { g with cancel_ := true }

/-- Member `void call_now() { cancel_ = true; func_(); }`: returns the
updated guard and the single invocation it performs. -/
def scoped_lambda.call_now {F : Type} (g : scoped_lambda F) :
    scoped_lambda F × List F :=
  ({ g with cancel_ := true }, [g.func_])

/-- Destructor `~scoped_lambda() { if (!cancel_) func_(); }`: the list of
invocations performed at destruction. -/
def scoped_lambda.destruct {F : Type} (g : scoped_lambda F) : List F :=
  if g.cancel_ then [] else [g.func_]

/-- Move constructor `scoped_lambda(scoped_lambda&& other)`: copies the
action and the `cancel_` flag, then calls `other.cancel()`.  Returns
(destination, source after the move). -/
def scoped_lambda.moveConstruct {F : Type} (other : scoped_lambda F) :
    scoped_lambda F × scoped_lambda F :=
  ({ func_ := other.func_, cancel_ := other.cancel_ }, other.cancel)

/-- Embedding of
`template <typename FUNC, bool CALL_ON_FAILURE> class conditional_scoped_lambda`:
the action, the `std::uncaught_exceptions()` snapshot taken at
construction (an `int` in the source), and the `cancel_` flag. -/
structure conditional_scoped_lambda (F : Type) (CALL_ON_FAILURE : Bool) where
  func_ : F
  uncaught_exception_count_ : Int
  cancel_ : Bool
  deriving DecidableEq, Repr

/-- Constructor `conditional_scoped_lambda(FUNC&& func)`: stores the
action, records the ambient `std::uncaught_exceptions()` value
(`uncaughtExceptions`), and sets `cancel_ = false`. -/
def conditional_scoped_lambda.construct {F : Type} (CALL_ON_FAILURE : Bool)
    (func : F) (uncaughtExceptions : Int) :
    conditional_scoped_lambda F CALL_ON_FAILURE :=
  { func_ := func, uncaught_exception_count_ := uncaughtExceptions,
    cancel_ := false }

/-- Member `bool is_unwinding_due_to_exception() const
{ return std::uncaught_exceptions() > uncaught_exception_count_; }`,
with the ambient counter value passed explicitly. -/
def conditional_scoped_lambda.is_unwinding_due_to_exception {F : Type}
    {B : Bool} (g : conditional_scoped_lambda F B)
    (uncaughtExceptions : Int) : Bool :=
  decide (g.uncaught_exception_count_ < uncaughtExceptions)

/-- Destructor `~conditional_scoped_lambda()
{ if (!cancel_ && (is_unwinding_due_to_exception() == CALL_ON_FAILURE)) func_(); }`:
the list of invocations performed at destruction, given the ambient
`std::uncaught_exceptions()` value at that moment. -/
def conditional_scoped_lambda.destruct {F : Type} {B : Bool}
    (g : conditional_scoped_lambda F B) (uncaughtExceptions : Int) : List F :=
  if !g.cancel_ && (g.is_unwinding_due_to_exception uncaughtExceptions == B)
  then [g.func_] else []

/-- Member `void cancel() { cancel_ = true; }` of the conditional guard. -/
def conditional_scoped_lambda.cancel {F : Type} {B : Bool}
    (g : conditional_scoped_lambda F B) : conditional_scoped_lambda F B :=
  { g with cancel_ := true }

/-- Move constructor of `conditional_scoped_lambda`: copies the action,
the `uncaught_exception_count_` snapshot and the `cancel_` flag, then
calls `other.cancel()`.  Returns (destination, source after the move). -/
def conditional_scoped_lambda.moveConstruct {F : Type} {B : Bool}
    (other : conditional_scoped_lambda F B) :
    conditional_scoped_lambda F B × conditional_scoped_lambda F B :=
  ({ func_ := other.func_,
     uncaught_exception_count_ := other.uncaught_exception_count_,
     cancel_ := other.cancel_ }, other.cancel)

/-- Factory `on_scope_failure`: a conditional guard with
`CALL_ON_FAILURE = true`, constructed at the given ambient
`std::uncaught_exceptions()` value. -/
def on_scope_failure {F : Type} (func : F) (uncaughtExceptions : Int) :
    conditional_scoped_lambda F true :=
  conditional_scoped_lambda.construct true func uncaughtExceptions

/-- Factory `on_scope_success`: a conditional guard with
`CALL_ON_FAILURE = false`, constructed at the given ambient
`std::uncaught_exceptions()` value. -/
def on_scope_success {F : Type} (func : F) (uncaughtExceptions : Int) :
    conditional_scoped_lambda F false :=
  conditional_scoped_lambda.construct false func uncaughtExceptions

/-- Tag type `enum class ScopeExit {}` of namespace `detail`. -/
inductive ScopeExit where
  | tag
  deriving DecidableEq

/-- Embedding of `detail::operator+(ScopeExit, Func&& fn)`:
`return on_scope_exit(std::forward<Func>(fn));`. -/
def scopeExitPlus {F : Type} (_ : ScopeExit) (fn : F) : scoped_lambda F :=
  on_scope_exit fn

/-- The guard produced by the `ON_SCOPE_EXIT` convenience form, which
expands to `fragment::detail::ScopeExit() + [&](){...}`. -/
def onScopeExitBlock {F : Type} (fn : F) : scoped_lambda F :=
  scopeExitPlus ScopeExit.tag fn

/-- The mid-lifetime operations available on an unconditional guard. -/
inductive GuardOp where
  | cancelOp
  | callNowOp
  deriving DecidableEq, Repr

/-- Number of `call_now` operations in a sequence. -/
def countCallNow : List GuardOp → Nat
  | [] => 0
  | GuardOp.callNowOp :: rest => countCallNow rest + 1
  | GuardOp.cancelOp :: rest => countCallNow rest

/-- Run a sequence of `cancel` / `call_now` operations on an
unconditional guard, collecting the invocations they perform. -/
def runOps {F : Type} (g : scoped_lambda F) : List GuardOp → scoped_lambda F × List F
  | [] => (g, [])
  | GuardOp.cancelOp :: rest => runOps g.cancel rest
  | GuardOp.callNowOp :: rest =>
    let p := g.call_now
    let q := runOps p.1 rest
    (q.1, p.2 ++ q.2)

/-- All invocations of the action over the whole lifetime of an
unconditional guard constructed with action `f`: the operations in
`ops`, followed by destruction at scope exit. -/
def lifetimeCalls {F : Type} (f : F) (ops : List GuardOp) : List F :=
  (runOps (on_scope_exit f) ops).2 ++ ((runOps (on_scope_exit f) ops).1).destruct

/-- Embedding of `template <typename T, auto... Field> struct StealMember`,
whose injected friend is
`auto steal_impl(T &t) { return std::make_tuple(Field...); }`:
the type `Fields` stands for the tuple type of the non-type template
parameter pack `Field...`, `Field` for the pack itself, and the body
returns the tuple built from the pack — the parameter `t` is not used. -/
def steal_impl {T Fields : Type} (Field : Fields) (_t : T) : Fields :=
  Field

/-- An instance type with three data members of distinct types, standing
for a target type `T` with a declared member capability
(`FRAGMENT_STEAL_MEMBER_DEFINE(Obj, &Obj::a, &Obj::b, &Obj::c)`). -/
structure Obj where
  a : Nat
  b : Bool
  c : Int
  deriving DecidableEq, Repr

/-- The declared member-pointer pack `&Obj::a, &Obj::b, &Obj::c`,
member pointers being modelled as projection functions. -/
def objFields : (Obj → Nat) × (Obj → Bool) × (Obj → Int) :=
  (Obj.a, Obj.b, Obj.c)

/-- Modelled from the spec's words, for comparison with `steal_impl`:
"`steal(instance_of_T) -> tuple_of_member_values`: returns the current
values of the declared members" — the tuple of the instance's current
member values. -/
def steal_spec_values (t : Obj) : Nat × Bool × Int :=
  (t.a, t.b, t.c)

/-! ### Helper lemmas about operation sequences on an unconditional guard -/

/-- Every `call_now` in a sequence invokes the action exactly once,
whatever the guard's state: the invocation trace of `runOps` has one
entry per `call_now` operation. -/
theorem runOps_calls_length {F : Type} (g : scoped_lambda F)
    (ops : List GuardOp) :
    ((runOps g ops).2).length = countCallNow ops := by
  induction ops generalizing g with
  | nil => rfl
  | cons op rest ih =>
    cases op with
    | cancelOp => simpa [runOps, countCallNow] using ih g.cancel
    | callNowOp =>
      simp [runOps, countCallNow, scoped_lambda.call_now, ih, Nat.add_comm]

/-- The `cancel_` flag after a sequence of operations: it is set as soon
as any operation ran (`cancel` sets it, and `call_now` sets it too). -/
theorem runOps_cancel_flag {F : Type} (g : scoped_lambda F)
    (ops : List GuardOp) :
    ((runOps g ops).1).cancel_ = (g.cancel_ || !ops.isEmpty) := by
  induction ops generalizing g with
  | nil => simp [runOps]
  | cons op rest ih =>
    cases op with
    | cancelOp => simp [runOps, ih, scoped_lambda.cancel]
    | callNowOp => simp [runOps, ih, scoped_lambda.call_now]

/-! ### Claim theorems -/

/-- Claim C5: an unconditional guard constructed with action `f` on which
neither `cancel` nor `call_now` is ever performed invokes `f` exactly
once at destruction; if `cancel` was performed before destruction (and
`call_now` never), `f` is never invoked. -/
theorem on_scope_exit_fires_once_unless_cancelled {F : Type} (f : F)
    (ops : List GuardOp) :
    (ops = [] → lifetimeCalls f ops = [f]) ∧
    (countCallNow ops = 0 → GuardOp.cancelOp ∈ ops → lifetimeCalls f ops = []) := by
  constructor
  · rintro rfl
    simp [lifetimeCalls, runOps, on_scope_exit, scoped_lambda.destruct]
  · intro hcount hmem
    have hne : ops ≠ [] := by rintro rfl; cases hmem
    have hcancel : ((runOps (on_scope_exit f) ops).1).cancel_ = true := by
      rw [runOps_cancel_flag]
      simp [on_scope_exit, List.isEmpty_iff, hne]
    have hlen : ((runOps (on_scope_exit f) ops).2).length = 0 := by
      rw [runOps_calls_length]; exact hcount
    have htrace : (runOps (on_scope_exit f) ops).2 = [] :=
      List.eq_nil_of_length_eq_zero hlen
    simp [lifetimeCalls, htrace, scoped_lambda.destruct, hcancel]

/-- Claim C5 witness: with action `0`, doing nothing yields exactly one
invocation at destruction, and cancelling yields none. -/
theorem on_scope_exit_fires_once_unless_cancelled_witness :
    lifetimeCalls (0 : Nat) [] = [0] ∧
    lifetimeCalls (0 : Nat) [GuardOp.cancelOp] = [] :=
  ⟨(on_scope_exit_fires_once_unless_cancelled 0 []).1 rfl,
   (on_scope_exit_fires_once_unless_cancelled 0 [GuardOp.cancelOp]).2
     rfl (by decide)⟩

/-- Claim C6: on an unconditional guard in the Armed state, `call_now`
invokes the action immediately exactly once, and the subsequent
destruction of that guard invokes nothing. -/
theorem call_now_fires_immediately_once {F : Type} (g : scoped_lambda F)
    (h : g.cancel_ = false) :
    (g.call_now).2 = [g.func_] ∧ ((g.call_now).1).destruct = [] :=
  ⟨rfl, rfl⟩

/-- Claim C6 witness: a freshly constructed guard with action `0`. -/
theorem call_now_fires_immediately_once_witness :
    ((on_scope_exit (0 : Nat)).call_now).2 = [(on_scope_exit (0 : Nat)).func_] ∧
    (((on_scope_exit (0 : Nat)).call_now).1).destruct = [] :=
  call_now_fires_immediately_once (on_scope_exit 0) rfl

/-- Claim C7: move construction, for both guard shapes: the source ends
cancelled and invokes nothing at its own destruction, while the
destination takes over the action and the source's prior
armed/cancelled flag and fires at destruction exactly as the source
would have. -/
theorem move_transfers_state_and_silences_source {F : Type}
    (g1 : scoped_lambda F) (B : Bool)
    (c1 : conditional_scoped_lambda F B) (u : Int) :
    ((g1.moveConstruct).2).destruct = [] ∧
    ((g1.moveConstruct).1).func_ = g1.func_ ∧
    ((g1.moveConstruct).1).cancel_ = g1.cancel_ ∧
    ((g1.moveConstruct).1).destruct = g1.destruct ∧
    ((c1.moveConstruct).2).destruct u = [] ∧
    ((c1.moveConstruct).1).func_ = c1.func_ ∧
    ((c1.moveConstruct).1).cancel_ = c1.cancel_ ∧
    ((c1.moveConstruct).1).destruct u = c1.destruct u :=
  ⟨rfl, rfl, rfl, rfl, rfl, rfl, rfl, rfl⟩

/-- Claim C8: the guard produced by the `ON_SCOPE_EXIT` statement form
(`detail::ScopeExit() + fn`, i.e. `detail::operator+`) is the very guard
produced by explicit construction through `on_scope_exit`; the wrapper
adds no behaviour of its own. -/
theorem on_scope_exit_block_is_on_scope_exit {F : Type} (fn : F) :
    onScopeExitBlock fn = on_scope_exit fn ∧
    scopeExitPlus ScopeExit.tag fn = on_scope_exit fn :=
  ⟨rfl, rfl⟩

/-- Claim C9: `call_now` does not consult the `cancel_` flag — after a
`cancel`, and likewise after an earlier `call_now`, it invokes the
action again; only the destructor path is suppressed by the flag. -/
theorem call_now_ignores_cancelled_flag {F : Type} (g : scoped_lambda F) :
    ((g.cancel).call_now).2 = [g.func_] ∧
    (((g.call_now).1).call_now).2 = [g.func_] ∧
    (g.cancel).destruct = [] :=
  ⟨rfl, rfl, rfl⟩

/-- Claim C2 counterexample: performing `call_now` twice on an
unconditional guard invokes the action twice over the guard's lifetime,
so "invoked at most once over the whole lifetime" fails as stated. -/
theorem guard_action_twice_counterexample :
    ¬ (lifetimeCalls (0 : Nat) [GuardOp.callNowOp, GuardOp.callNowOp]).length ≤ 1 := by
  decide

/-- Claim C2 as amended: over any lifetime in which `call_now` is
performed at most once, the action is invoked at most once, and if the
destructor path invokes it then no `call_now` ever did; conditional
guards (which offer only `cancel`) invoke the action at most once at
destruction from any state. -/
theorem guard_action_at_most_once {F : Type} (f : F) (ops : List GuardOp)
    (h : countCallNow ops ≤ 1) :
    (lifetimeCalls f ops).length ≤ 1 ∧
    (((runOps (on_scope_exit f) ops).1).destruct ≠ [] →
      (runOps (on_scope_exit f) ops).2 = []) ∧
    (∀ (b : Bool) (g : conditional_scoped_lambda F b) (u : Int),
      (g.destruct u).length ≤ 1) := by
  refine ⟨?_, ?_, ?_⟩
  · cases ops with
    | nil => simp [lifetimeCalls, runOps, on_scope_exit, scoped_lambda.destruct]
    | cons op rest =>
      have hcancel :
          ((runOps (on_scope_exit f) (op :: rest)).1).cancel_ = true := by
        rw [runOps_cancel_flag]; simp
      have hlen := runOps_calls_length (on_scope_exit f) (op :: rest)
      simp only [lifetimeCalls, scoped_lambda.destruct, hcancel, if_pos,
        List.append_nil, List.length_append]
      omega
  · intro hne
    by_cases hops : ops = []
    · subst hops; rfl
    · exfalso
      apply hne
      have hcancel : ((runOps (on_scope_exit f) ops).1).cancel_ = true := by
        rw [runOps_cancel_flag]; simp [List.isEmpty_iff, hops]
      simp [scoped_lambda.destruct, hcancel]
  · intro b g u
    unfold conditional_scoped_lambda.destruct
    split <;> simp

/-- Claim C2 witness: a lifetime with a single `call_now` invokes the
action at most once. -/
theorem guard_action_at_most_once_witness :
    (lifetimeCalls (0 : Nat) [GuardOp.callNowOp]).length ≤ 1 :=
  (guard_action_at_most_once 0 [GuardOp.callNowOp] (by decide)).1

/-- Claim C3: a failure-only guard records the in-flight error count at
construction; an uncancelled failure-only guard invokes its action at
destruction exactly when the current count strictly exceeds the
recorded one, and in particular not when the count is unchanged. -/
theorem on_scope_failure_fires_iff_count_increased {F : Type} (f : F)
    (u0 : Int) (g : conditional_scoped_lambda F true)
    (hg : g.cancel_ = false) (u1 : Int) :
    (on_scope_failure f u0).uncaught_exception_count_ = u0 ∧
    (g.destruct u1 = [g.func_] ↔ g.uncaught_exception_count_ < u1) ∧
    (u1 = g.uncaught_exception_count_ → g.destruct u1 = []) := by
  refine ⟨rfl, ?_, ?_⟩
  · by_cases h : g.uncaught_exception_count_ < u1 <;>
      simp [conditional_scoped_lambda.destruct,
        conditional_scoped_lambda.is_unwinding_due_to_exception, hg, h]
  · rintro rfl
    simp [conditional_scoped_lambda.destruct,
      conditional_scoped_lambda.is_unwinding_due_to_exception, hg]

/-- Claim C3 witness: a failure-only guard constructed at count 5 and
destroyed at count 6. -/
theorem on_scope_failure_fires_iff_count_increased_witness :
    (on_scope_failure (0 : Nat) 5).uncaught_exception_count_ = 5 ∧
    ((on_scope_failure (0 : Nat) 5).destruct 6 =
        [(on_scope_failure (0 : Nat) 5).func_] ↔
      (on_scope_failure (0 : Nat) 5).uncaught_exception_count_ < 6) ∧
    ((6 : Int) = (on_scope_failure (0 : Nat) 5).uncaught_exception_count_ →
      (on_scope_failure (0 : Nat) 5).destruct 6 = []) :=
  on_scope_failure_fires_iff_count_increased 0 5 (on_scope_failure 0 5) rfl 6

/-- Claim C4 counterexample: a failure-only and a success-only guard
given identical stimuli — both constructed at count 0, both cancelled,
both destroyed at count 1 — invoke nothing at destruction: neither of
the two fires, so "exactly one of the two invokes its action" fails as
stated. -/
theorem failure_success_pair_cancelled_counterexample :
    ((on_scope_failure (0 : Nat) 0).cancel).destruct 1 = [] ∧
    ((on_scope_success (0 : Nat) 0).cancel).destruct 1 = [] := by
  decide

/-- Claim C4 as amended: for an uncancelled failure-only guard and an
uncancelled success-only guard constructed with the same action at the
same count and destroyed at the same count, exactly one of the two
invokes its action at destruction, the success-only one precisely when
the failure-only condition does not hold. -/
theorem failure_success_complementary {F : Type} (f : F) (u0 u1 : Int) :
    (((on_scope_failure f u0).destruct u1 = [f] ∧
        (on_scope_success f u0).destruct u1 = []) ∨
      ((on_scope_failure f u0).destruct u1 = [] ∧
        (on_scope_success f u0).destruct u1 = [f])) ∧
    ((on_scope_success f u0).destruct u1 = [f] ↔
      ¬ (on_scope_failure f u0).destruct u1 = [f]) := by
  by_cases h : u0 < u1 <;>
    simp [on_scope_failure, on_scope_success,
      conditional_scoped_lambda.construct, conditional_scoped_lambda.destruct,
      conditional_scoped_lambda.is_unwinding_due_to_exception, h]

/-- Claim C10: move construction of a conditional guard transfers the
`uncaught_exception_count_` snapshot unchanged (the move constructor
never reads the ambient counter), so the destination's fire decision at
destruction is the one the source would have made, relative to the
count recorded at the source's construction. -/
theorem move_preserves_exception_snapshot {F : Type} (B : Bool)
    (g : conditional_scoped_lambda F B) (f : F) (u0 u1 : Int) :
    ((g.moveConstruct).1).uncaught_exception_count_ =
      g.uncaught_exception_count_ ∧
    ((g.moveConstruct).1).destruct u1 = g.destruct u1 ∧
    (((on_scope_failure f u0).moveConstruct).1).destruct u1 =
      (if u0 < u1 then [f] else []) := by
  refine ⟨rfl, rfl, ?_⟩
  by_cases h : u0 < u1 <;>
    simp [on_scope_failure, conditional_scoped_lambda.construct,
      conditional_scoped_lambda.moveConstruct,
      conditional_scoped_lambda.destruct,
      conditional_scoped_lambda.is_unwinding_due_to_exception, h]

/-- Claim C1 counterexample: `steal_impl` returns the same tuple for two
instances whose member values differ — the spec-side value snapshot
distinguishes them, `steal_impl` does not, and its first component is
the member pointer `&Obj::a` itself, not a member value. -/
theorem steal_impl_not_value_snapshot :
    steal_impl objFields (Obj.mk 0 false 0) =
      steal_impl objFields (Obj.mk 1 true 1) ∧
    steal_spec_values (Obj.mk 0 false 0) ≠
      steal_spec_values (Obj.mk 1 true 1) ∧
    (steal_impl objFields (Obj.mk 0 false 0)).1 = Obj.a :=
  ⟨rfl, by decide, rfl⟩

/-- Claim C1 as amended: `steal_impl` returns the tuple of the declared
member pointers, identical for every instance (the instance argument is
unused); the current member values are recovered by applying each
returned member pointer to the instance. -/
theorem steal_impl_returns_member_pointers (t : Obj) :
    steal_impl objFields t = objFields ∧
    ((steal_impl objFields t).1 t, (steal_impl objFields t).2.1 t,
      (steal_impl objFields t).2.2 t) = steal_spec_values t :=
  ⟨rfl, rfl⟩

end fragment
